import Mathlib

/-!
# Verification of `maxcul._io.CulIoThread` (pymaxcul)

A shallow embedding of the serial-communication loop in `src/maxcul/_io.py`.

* Strings are Lean `String`s (lists of characters), matching Python's
  character-level string operations used by the source.
* The mutable instance state of `CulIoThread` becomes the record `CulState`;
  each method becomes a function from state (plus inbound data, modelled as
  explicit inputs) to state.  Written wire lines are accumulated in a
  `written` log so that send effects are observable.
* Python exceptions raised by `encode_message` are modelled by `Option`:
  `none` means the call raised.
* `collections.deque([], 10)` (`_send_queue`) is modelled by a `List` whose
  head is the "left"/newest end and whose last element is the
  "right"/oldest end; `appendleft`, `append` and `pop` are translated with
  the bounded-eviction behaviour of a `deque` with `maxlen`.
-/

namespace Maxcul

/-- Python `s.startswith(p)`: `p` is a character-wise prefix of `s`. -/
def pyStartsWith (s p : String) : Bool :=
  p.data.isPrefixOf s.data

/-- Python `s[n:]`: drop the first `n` characters. -/
def pyDrop (s : String) (n : Nat) : String :=
  ⟨s.data.drop n⟩

/-- Python `s.strip()`: remove whitespace from both ends. -/
def pyStrip (s : String) : String :=
  ⟨((s.data.dropWhile Char.isWhitespace).reverse.dropWhile Char.isWhitespace).reverse⟩

/-- Parse a non-empty string of decimal digits (helper for `pyInt`). -/
def parseDigitsAux : List Char → Nat → Option Nat
  | [], acc => some acc
  | c :: cs, acc =>
    if c.isDigit then parseDigitsAux cs (acc * 10 + (c.toNat - 48)) else none

/-- Parse a non-empty all-digit character list as a natural number. -/
def parseDigits : List Char → Option Nat
  | [] => none
  | c :: cs => parseDigitsAux (c :: cs) 0

/-- Python `int(s)` on an already-stripped string: an optional sign followed
by at least one decimal digit; `none` models a raised `ValueError`. -/
def pyInt (s : String) : Option Int :=
  match s.data with
  | '-' :: cs => (parseDigits cs).map (fun n => -(n : Int))
  | '+' :: cs => (parseDigits cs).map (fun n => (n : Int))
  | cs => (parseDigits cs).map (fun n => (n : Int))

/-- `MAX_QUEUED_COMMANDS = 10` (`_io.py`, line 13). -/
def MAX_QUEUED_COMMANDS : Nat := 10

/-- `COMMAND_REQUEST_BUDGET = 'X'` (`_io.py`, line 16). -/
def COMMAND_REQUEST_BUDGET : String := "X"

/-- `MIN_REQUIRED_BUDGET = 1500` (`_io.py`, line 18). -/
def MIN_REQUIRED_BUDGET : Int := 1500

/-- `COMMAND_CHARACTER_WEIGHT = 30` (`_io.py`, line 19). -/
def COMMAND_CHARACTER_WEIGHT : Int := 30

/-- A queued command object; its `encode_message` method may raise
(modelled by `none`) or return the encoded wire line. -/
structure Command where
  encode_message : Option String
deriving DecidableEq

/-- The mutable state of `CulIoThread` relevant to the communication loop.
`read_queue` is the inbound event sink (FIFO, growing at the tail);
`send_queue` is the bounded outbound deque (head = newest/left end,
last = oldest/right end); `written` logs every line written to the wire. -/
structure CulState where
  read_queue : List String
  send_queue : List Command
  remaining_budget : Int
  waiting_for_budget : Bool
  written : List String
deriving DecidableEq

/-- The state after `__init__` (`_io.py`, lines 26-37): empty queues,
`_remaining_budget = 0`, `_waiting_for_budget = False`; the parameter gives
the initial contents of the send queue (empty at real construction). -/
def initState (q : List Command) : CulState :=
  { read_queue := [], send_queue := q, remaining_budget := 0,
    waiting_for_budget := false, written := [] }

/-- Property `has_send_budget` (`_io.py`, lines 44-47):
`self._remaining_budget >= MIN_REQUIRED_BUDGET`. -/
def has_send_budget (s : CulState) : Bool :=
  s.remaining_budget ≥ MIN_REQUIRED_BUDGET

/-- `deque.appendleft` on a deque with `maxlen = MAX_QUEUED_COMMANDS`:
insert at the newest/left end, silently evicting the oldest/right element
when at capacity. -/
def dequeAppendleft (q : List Command) (c : Command) : List Command :=
  (c :: q).take MAX_QUEUED_COMMANDS

/-- `enqueue_command` (`_io.py`, lines 49-51): `self._send_queue.appendleft(command)`. -/
def enqueue_command (s : CulState) (c : Command) : CulState :=
  { s with send_queue := dequeAppendleft s.send_queue c }

/-- `deque.pop` from the right/oldest end; `none` models the raised
`IndexError` on an empty deque. -/
def popOldest (q : List Command) : Option (Command × List Command) :=
  match q.reverse with
  | [] => none
  | c :: rest => some (c, rest.reverse)

/-- `deque.append` on a deque with `maxlen = MAX_QUEUED_COMMANDS`: insert at
the right/oldest end, evicting the newest/left element when at capacity. -/
def dequeAppend (q : List Command) (c : Command) : List Command :=
  if q.length < MAX_QUEUED_COMMANDS then q ++ [c] else q.drop 1 ++ [c]

/-- The value assigned by `_receive_message` on a `"21"` line
(`_io.py`, line 94): `int(line[3:].strip()) * 10 or 1`; `none` models the
`ValueError` that `int` raises when the remainder is not an integer
literal. -/
def budget_report (line : String) : Option Int :=
  (pyInt (pyStrip (pyDrop line 3))).map (fun n => if n * 10 = 0 then 1 else n * 10)

/-- `_receive_message` (`_io.py`, lines 89-108) applied to one non-empty
inbound `line` (the `_readline` call is factored out: the argument is the
line it returned).  Returns `none` when the body raises (only possible in
the `int(...)` parse of a `"21"` line). -/
def receive_message (s : CulState) (line : String) : Option CulState :=
  if pyStartsWith line "21" then
    (budget_report line).map (fun b => { s with remaining_budget := b })
  else if pyStartsWith line "ZERR" then
    some s
  else if pyStartsWith line "Z" then
    some { s with read_queue := s.read_queue ++ [line] }
  else
    some s

/-- `_send_pending_message` (`_io.py`, lines 110-130):
pop the oldest queued command; on encoding failure drop it; otherwise admit
it only when `_remaining_budget > len(command) * COMMAND_CHARACTER_WEIGHT`,
debiting the budget for commands starting with `"Zs"`; on rejection
reinsert it at the oldest end and write the budget query instead. -/
def send_pending_message (s : CulState) : CulState :=
  match popOldest s.send_queue with
  | none => s
  | some (pending_message, rest) =>
    match pending_message.encode_message with
    | none => { s with send_queue := rest }
    | some command =>
      if s.remaining_budget > (command.length : Int) * COMMAND_CHARACTER_WEIGHT then
        let s1 : CulState :=
          { s with send_queue := rest, written := s.written ++ [command] }
        if pyStartsWith command "Zs" then
          { s1 with remaining_budget :=
              s1.remaining_budget - COMMAND_CHARACTER_WEIGHT * (command.length : Int) }
        else
          s1
      else
        { s with send_queue := dequeAppend rest pending_message,
                 written := s.written ++ [COMMAND_REQUEST_BUDGET] }

/-- Budget effect of one `_writeline` call (`_io.py`, lines 217-230): a
write that raises `SerialException`/`TelnetException` runs
`_reopen_serial_device`, which sets `_remaining_budget = 0` (line 209)
before control returns to the caller — this happens whether the reopen
then succeeds (write retried) or fails (stop flag set); either way
`_writeline` returns and the caller continues.  A clean write leaves the
budget alone.  `fails` says whether the write raised at least once. -/
def writeline_budget (fails : Bool) (b : Int) : Int :=
  if fails then 0 else b

/-- `_send_pending_message` (`_io.py`, lines 110-130) with the budget
effect of its `_writeline` calls made explicit: `wfail` says whether the
write performed by this step raised.  Because `_writeline(command)` runs
BETWEEN the admission check (line 117) and the debit (line 122), a failing
write resets the budget to zero and the debit then executes on the reset
value.  The rejection branch's budget-query write can fail the same way.
(`written` logs the line this step hands to `_writeline` once; the retry
and the handshake lines written inside a reopen are not part of this
step's log.)  With `wfail = false` this coincides with
`send_pending_message` (see `send_io_false`). -/
def send_pending_message_io (s : CulState) (wfail : Bool) : CulState :=
  match popOldest s.send_queue with
  | none => s
  | some (pending_message, rest) =>
    match pending_message.encode_message with
    | none => { s with send_queue := rest }
    | some command =>
      if s.remaining_budget > (command.length : Int) * COMMAND_CHARACTER_WEIGHT then
        let b1 : Int := writeline_budget wfail s.remaining_budget
        let s1 : CulState :=
          { s with send_queue := rest, remaining_budget := b1,
                   written := s.written ++ [command] }
        if pyStartsWith command "Zs" then
          { s1 with remaining_budget :=
              b1 - COMMAND_CHARACTER_WEIGHT * (command.length : Int) }
        else
          s1
      else
        { s with send_queue := dequeAppend rest pending_message,
                 remaining_budget := writeline_budget wfail s.remaining_budget,
                 written := s.written ++ [COMMAND_REQUEST_BUDGET] }

/-- `_receive_messages` (`_io.py`, lines 85-87), with the drained lines made
explicit: process each pending inbound line in order. -/
def receive_messages (s : CulState) : List String → Option CulState
  | [] => some s
  | line :: rest => (receive_message s line).bind (fun s1 => receive_messages s1 rest)

/-- One iteration of `_loop` (`_io.py`, lines 63-83), with the inbound lines
drained this tick given explicitly.  The time-keyed 24-hour forced-reopen
branch and the sleeps are time-dependent effects outside the state model
and are omitted; neither touches the send queue. -/
def loop_step (s : CulState) (lines : List String) : Option CulState :=
  (receive_messages s lines).map (fun s1 =>
    if s1.remaining_budget < MIN_REQUIRED_BUDGET then
      { s1 with written := s1.written ++ [COMMAND_REQUEST_BUDGET],
                waiting_for_budget := true }
    else
      send_pending_message { s1 with waiting_for_budget := false })

/-- Iterate `loop_step` over successive ticks, each with its own batch of
inbound lines. -/
def runLoop (s : CulState) : List (List String) → Option CulState
  | [] => some s
  | lines :: rest => (loop_step s lines).bind (fun s1 => runLoop s1 rest)

/-! ## Connection (re)initialisation (`_io.py`, lines 141-215)

The environment (device) is modelled by the outcome of each port-open
attempt: either the constructor raises (`PortOpen.fail`, covering
`SerialException` / `TelnetException`), or the port object is created and
`PortOpen.ok replies` gives, for each iteration `i` of the version loop in
`_initialize_serial_device`, the line that `_readline()` returns there
(`none` = no line). -/

/-- Outcome of one attempt to construct the underlying port object. -/
inductive PortOpen where
  | fail : PortOpen
  | ok : (Nat → Option String) → PortOpen

/-- The `for _ in range(10)` version loop of `_initialize_serial_device`
(`_io.py`, lines 175-183): starting at iteration `i` with `fuel` iterations
left, return the iteration index and version of the first answered query. -/
def findVersion (replies : Nat → Option String) : Nat → Nat → Option (Nat × String)
  | 0, _ => none
  | fuel + 1, i =>
    match replies i with
    | some v => some (i, v)
    | none => findVersion replies fuel (i + 1)

/-- `_initialize_serial_device` (`_io.py`, lines 171-200): query the version
up to 10 times (one `"V"` write per iteration); on success write the
mode-configuration commands `"X21"`, `"Zr"`, `"T01"` and the budget query,
and return success; otherwise close the port and fail.  Result: success
flag and the list of lines written during the call. -/
def initialize_serial_device (replies : Nat → Option String) : Bool × List String :=
  match findVersion replies 10 0 with
  | some (i, _) => (true, List.replicate (i + 1) "V" ++ ["X21", "Zr", "T01", COMMAND_REQUEST_BUDGET])
  | none => (false, List.replicate 10 "V")

/-- `_open_serial_device` (`_io.py`, lines 141-145): both the serial and the
telnet variants construct the port and then return
`self._initialize_serial_device()`. -/
def open_serial_device : PortOpen → Bool × List String
  | PortOpen.fail => (false, [])
  | PortOpen.ok replies => initialize_serial_device replies

/-- An observable event during `_reopen_serial_device`: an open attempt
(with the lines it wrote and whether it succeeded) or a backoff sleep. -/
inductive ReopenEvent where
  | attempt : List String → Bool → ReopenEvent
  | wait : Nat → ReopenEvent
deriving DecidableEq

/-- `true` exactly on open-attempt events. -/
def ReopenEvent.isAttempt : ReopenEvent → Bool
  | ReopenEvent.attempt _ _ => true
  | ReopenEvent.wait _ => false

/-- The `for timeout in [5, 10, 20, 40, 80, 160]` loop of
`_reopen_serial_device` (`_io.py`, lines 211-215): attempt number `k` uses
outcome `env k`; on success return immediately, otherwise sleep `t` and
continue.  Result: the Python return value and the event trace. -/
def reopen_go (env : Nat → PortOpen) : Nat → List Nat → Bool × List ReopenEvent
  | _, [] => (false, [])
  | k, t :: ts =>
    if (open_serial_device (env k)).1 then
      (true, [ReopenEvent.attempt (open_serial_device (env k)).2 true])
    else
      ((reopen_go env (k + 1) ts).1,
        ReopenEvent.attempt (open_serial_device (env k)).2 false ::
          ReopenEvent.wait t :: (reopen_go env (k + 1) ts).2)

/-- `_reopen_serial_device` (`_io.py`, lines 202-215).  It also closes the
old port and sets `_remaining_budget = 0` first (see `Reach.reconnect`). -/
def reopen_serial_device (env : Nat → PortOpen) : Bool × List ReopenEvent :=
  reopen_go env 0 [5, 10, 20, 40, 80, 160]

/-- Environment in which every port-open attempt raises. -/
def envAllFail : Nat → PortOpen := fun _ => PortOpen.fail

/-- Environment in which the first port-open attempt succeeds and the
device answers the first version query with `"V 1.67"`. -/
def envOkFirst : Nat → PortOpen :=
  fun _ => PortOpen.ok (fun _ => some "V 1.67")

/-! ## Reachability

The operations of `CulIoThread` that touch the loop state, as an inductive
reachability relation.  The parameter `ok` restricts which inbound device
lines the environment may produce, and `wok` restricts which write-failure
outcomes the transport may produce during a send step (`fun _ => True`
puts no restriction). -/

/-- Inbound lines whose budget report, if any, parses to a nonnegative
value. -/
def NonnegReport (line : String) : Prop :=
  pyStartsWith line "21" = true →
    ∀ n, pyInt (pyStrip (pyDrop line 3)) = some n → 0 ≤ n

/-- Transport behaviour in which no write raises during a send step. -/
def NoWriteFailure (wfail : Bool) : Prop :=
  wfail = false

/-- States reachable from construction by the operations of the source:
`enqueue_command` (any thread), processing one inbound line
(`_receive_message`), a send step (`_send_pending_message`, including the
budget reset that `_writeline`'s exception handler performs mid-step via
`_reopen_serial_device`), the budget-query write of the low-budget branch
of `_loop` (whose `_writeline` can fail and reset the budget the same
way), and the budget reset performed by a reconnect at any other point
(read failure, forced daily reopen). -/
inductive Reach (ok : String → Prop) (wok : Bool → Prop) : CulState → Prop where
  | init (q : List Command) : Reach ok wok (initState q)
  | enqueue (s : CulState) (c : Command) :
      Reach ok wok s → Reach ok wok (enqueue_command s c)
  | recv (s : CulState) (line : String) (s' : CulState) :
      Reach ok wok s → ok line → receive_message s line = some s' → Reach ok wok s'
  | send (s : CulState) (wfail : Bool) :
      wok wfail → Reach ok wok s → Reach ok wok (send_pending_message_io s wfail)
  | budgetQuery (s : CulState) (wfail : Bool) :
      Reach ok wok s →
      Reach ok wok
        { s with remaining_budget := writeline_budget wfail s.remaining_budget,
                 written := s.written ++ [COMMAND_REQUEST_BUDGET],
                 waiting_for_budget := true }
  | reconnect (s : CulState) : Reach ok wok s → Reach ok wok { s with remaining_budget := 0 }

/-- A transmit-class command of length 16 for the C9 counterexample. -/
def zsCmd : Command := { encode_message := some "Zs0123456789ABCD" }

/-- State just before the failing send of the C9 counterexample: budget
2000 (from the nonnegative report `"21 200"`), `zsCmd` queued. -/
def preFailState : CulState :=
  { read_queue := [], send_queue := [zsCmd], remaining_budget := 2000,
    waiting_for_budget := false, written := [] }

/-! ## Helper lemmas -/

/-- `popOldest` succeeds exactly on queues of the form `r ++ [c]`, returning
the last (oldest) element `c` and the remainder `r`. -/
theorem popOldest_eq_some_iff {q r : List Command} {c : Command} :
    popOldest q = some (c, r) ↔ q = r ++ [c] := by
  constructor
  · intro h
    unfold popOldest at h
    cases hq : q.reverse with
    | nil => rw [hq] at h; exact absurd h (by simp)
    | cons d ds =>
      rw [hq] at h
      simp only [Option.some.injEq, Prod.mk.injEq] at h
      obtain ⟨hd, hr⟩ := h
      have hqq : q = (d :: ds).reverse := by rw [← hq, List.reverse_reverse]
      subst hd hr
      simpa using hqq
  · intro h
    subst h
    unfold popOldest
    rw [List.reverse_append]
    simp

/-- Popping the queue obtained by reinsertion at the oldest end returns the
reinserted command again, with the same remainder. -/
theorem popOldest_append {r : List Command} {c : Command} :
    popOldest (r ++ [c]) = some (c, r) :=
  popOldest_eq_some_iff.mpr rfl

/-- Truncating before or after an append to a truncated list agree. -/
theorem take_append_take {α : Type} (l m : List α) (n : Nat) :
    (l ++ m.take n).take n = (l ++ m).take n := by
  rw [List.take_append_eq_append_take, List.take_append_eq_append_take,
    List.take_take, Nat.min_eq_left (Nat.sub_le _ _)]

/-! ## Claim C1: admission check and budget debit -/

/-- C1: with an oldest queued command whose encoding is `c`, the admission
check of `_send_pending_message` passes exactly when the remaining budget
strictly exceeds `COMMAND_CHARACTER_WEIGHT * length c` (`= 30 * length c`):
on admission `c` is written, and the budget is debited by exactly
`30 * length c` when `c` starts with `"Zs"` and left unchanged otherwise;
on rejection the budget query is written instead and the budget is
unchanged. -/
theorem send_admission_and_debit (s : CulState) (msg : Command)
    (rest : List Command) (c : String)
    (hpop : popOldest s.send_queue = some (msg, rest))
    (henc : msg.encode_message = some c) :
    (s.remaining_budget > (c.length : Int) * COMMAND_CHARACTER_WEIGHT →
      (send_pending_message s).written = s.written ++ [c] ∧
      (pyStartsWith c "Zs" = true →
        (send_pending_message s).remaining_budget
          = s.remaining_budget - COMMAND_CHARACTER_WEIGHT * (c.length : Int)) ∧
      (pyStartsWith c "Zs" = false →
        (send_pending_message s).remaining_budget = s.remaining_budget)) ∧
    (¬ s.remaining_budget > (c.length : Int) * COMMAND_CHARACTER_WEIGHT →
      (send_pending_message s).written = s.written ++ [COMMAND_REQUEST_BUDGET] ∧
      (send_pending_message s).remaining_budget = s.remaining_budget) := by
  simp only [send_pending_message, hpop, henc]
  constructor
  · intro hadm
    rw [if_pos hadm]
    by_cases hz : pyStartsWith c "Zs" = true
    · rw [if_pos hz]
      exact ⟨rfl, fun _ => rfl, fun hzf => by rw [hz] at hzf; cases hzf⟩
    · rw [if_neg hz]
      exact ⟨rfl, fun hzt => absurd hzt hz, fun _ => rfl⟩
  · intro hrej
    rw [if_neg hrej]
    exact ⟨rfl, rfl⟩

/-- Concrete state for the C1 witness: one queued command encoding to
`"Zs12"` and a budget of 2000 ms. -/
def wState : CulState :=
  { read_queue := [], send_queue := [{ encode_message := some "Zs12" }],
    remaining_budget := 2000, waiting_for_budget := false, written := [] }

/-- Witness for C1 at `wState`: `2000 > 30 * 4`, so `"Zs12"` is written and
the budget is debited by `30 * 4`. -/
theorem send_admission_and_debit_witness :
    wState.remaining_budget > (("Zs12" : String).length : Int) * COMMAND_CHARACTER_WEIGHT ∧
    (send_pending_message wState).written = wState.written ++ ["Zs12"] ∧
    (send_pending_message wState).remaining_budget
      = wState.remaining_budget - COMMAND_CHARACTER_WEIGHT * (("Zs12" : String).length : Int) := by
  have h := send_admission_and_debit wState { encode_message := some "Zs12" } [] "Zs12"
    (by decide) rfl
  exact ⟨by decide, (h.1 (by decide)).1, (h.1 (by decide)).2.1 (by decide)⟩

/-! ## Claim C4: rejected command is requeued at the oldest end -/

/-- C4: when the popped oldest command is rejected by the admission check,
it is reinserted at the oldest (next-to-send) end — popping again yields
the same command with the same remainder — and the budget query is written
instead of it. -/
theorem rejected_command_requeued (s : CulState) (msg : Command)
    (rest : List Command) (c : String)
    (hpop : popOldest s.send_queue = some (msg, rest))
    (henc : msg.encode_message = some c)
    (hcap : s.send_queue.length ≤ MAX_QUEUED_COMMANDS)
    (hrej : ¬ s.remaining_budget > (c.length : Int) * COMMAND_CHARACTER_WEIGHT) :
    (send_pending_message s).send_queue = rest ++ [msg] ∧
    popOldest (send_pending_message s).send_queue = some (msg, rest) ∧
    (send_pending_message s).written = s.written ++ [COMMAND_REQUEST_BUDGET] := by
  have hq := popOldest_eq_some_iff.mp hpop
  have hlen : rest.length < MAX_QUEUED_COMMANDS := by
    rw [hq] at hcap
    simp only [List.length_append, List.length_singleton] at hcap
    omega
  simp only [send_pending_message, hpop, henc]
  rw [if_neg hrej]
  refine ⟨?_, ?_, rfl⟩
  · simp [dequeAppend, hlen]
  · simp [dequeAppend, hlen, popOldest_append]

/-- Commands used by the C4 and C8 witnesses. -/
def wOld : Command := { encode_message := some "Zs11" }

/-- A second, more recently enqueued command. -/
def wNew : Command := { encode_message := some "Zs22" }

/-- Concrete low-budget state for the C4 witness: `wOld` is the oldest of
two queued commands and the budget is 0. -/
def wStateLow : CulState :=
  { read_queue := [], send_queue := [wNew, wOld], remaining_budget := 0,
    waiting_for_budget := true, written := [] }

/-- Witness for C4 at `wStateLow`: the rejected `wOld` stays the next
command to pop and the budget query is written. -/
theorem rejected_command_requeued_witness :
    popOldest wStateLow.send_queue = some (wOld, [wNew]) ∧
    (send_pending_message wStateLow).send_queue = [wNew] ++ [wOld] ∧
    popOldest (send_pending_message wStateLow).send_queue = some (wOld, [wNew]) ∧
    (send_pending_message wStateLow).written
      = wStateLow.written ++ [COMMAND_REQUEST_BUDGET] := by
  have h := rejected_command_requeued wStateLow wOld [wNew] "Zs11"
    (by decide) rfl (by decide) (by decide)
  exact ⟨by decide, h.1, h.2.1, h.2.2⟩

/-! ## Claim C8: encoding failure drops the command -/

/-- C8: when encoding the popped command raises, the exception is caught,
the command is dropped (queue afterwards equals the queue before the pop
minus that command) and everything else — budget, written lines, event
sink — is unchanged. -/
theorem encoding_failure_drops_command (s : CulState) (msg : Command)
    (rest : List Command)
    (hpop : popOldest s.send_queue = some (msg, rest))
    (henc : msg.encode_message = none) :
    send_pending_message s = { s with send_queue := rest } := by
  simp only [send_pending_message, hpop, henc]

/-- A queued command whose `encode_message` raises. -/
def wBad : Command := { encode_message := none }

/-- Concrete state for the C8 witness: the oldest command fails to encode. -/
def wStateBad : CulState :=
  { read_queue := [], send_queue := [wNew, wBad], remaining_budget := 2000,
    waiting_for_budget := false, written := [] }

/-- Witness for C8 at `wStateBad`: the failing command is dropped and the
rest of the state is untouched. -/
theorem encoding_failure_drops_command_witness :
    send_pending_message wStateBad = { wStateBad with send_queue := [wNew] } :=
  encoding_failure_drops_command wStateBad wBad [wNew] (by decide) rfl

/-! ## Claim C7: inbound line classification -/

/-- A line starting with `"ZERR"` also starts with `"Z"`. -/
theorem startsWith_trans_ZERR {line : String} (h : pyStartsWith line "ZERR" = true) :
    pyStartsWith line "Z" = true := by
  unfold pyStartsWith at h ⊢
  rw [show ("ZERR" : String).data = ['Z', 'E', 'R', 'R'] from rfl] at h
  rw [show ("Z" : String).data = ['Z'] from rfl]
  revert h
  cases line.data with
  | nil => intro h; simp [List.isPrefixOf] at h
  | cons a as =>
    intro h
    simp only [List.isPrefixOf, Bool.and_eq_true] at h ⊢
    exact ⟨h.1, by simp [List.isPrefixOf]⟩

/-- A line starting with `"Z"` does not start with `"21"`. -/
theorem startsWith_Z_not_21 {line : String} (h : pyStartsWith line "Z" = true) :
    pyStartsWith line "21" = false := by
  unfold pyStartsWith at h ⊢
  rw [show ("Z" : String).data = ['Z'] from rfl] at h
  rw [show ("21" : String).data = ['2', '1'] from rfl]
  revert h
  cases line.data with
  | nil => intro h; simp [List.isPrefixOf] at h
  | cons a as =>
    intro h
    simp only [List.isPrefixOf, Bool.and_eq_true] at h
    have ha : 'Z' = a := eq_of_beq h.1
    subst ha
    simp only [List.isPrefixOf]
    rw [show (('2' : Char) == 'Z') = false from rfl]
    simp

/-- C7: a `"ZERR"` line is not forwarded to the event sink (and changes no
state); a `"Z"` line that is not a `"ZERR"` line is forwarded to the event
sink verbatim; a line matching none of `"21"`, `"ZERR"`, `"Z"` is dropped
with no state change. -/
theorem receive_classification (s : CulState) (line : String) :
    (pyStartsWith line "ZERR" = true → receive_message s line = some s) ∧
    (pyStartsWith line "Z" = true → pyStartsWith line "ZERR" = false →
      receive_message s line = some { s with read_queue := s.read_queue ++ [line] }) ∧
    (pyStartsWith line "21" = false → pyStartsWith line "ZERR" = false →
      pyStartsWith line "Z" = false → receive_message s line = some s) := by
  refine ⟨?_, ?_, ?_⟩
  · intro hZERR
    have h21 := startsWith_Z_not_21 (startsWith_trans_ZERR hZERR)
    simp [receive_message, h21, hZERR]
  · intro hZ hZERR
    have h21 := startsWith_Z_not_21 hZ
    simp [receive_message, h21, hZERR, hZ]
  · intro h21 hZERR hZ
    simp [receive_message, h21, hZERR, hZ]

/-- Witness for C7 at the spec's example lines `"ZERRxyz"`, `"Zabc"` and at
the unhandled line `"foo"`. -/
theorem receive_classification_witness :
    receive_message (initState []) "ZERRxyz" = some (initState []) ∧
    receive_message (initState []) "Zabc"
      = some { initState [] with read_queue := ["Zabc"] } ∧
    receive_message (initState []) "foo" = some (initState []) :=
  ⟨(receive_classification (initState []) "ZERRxyz").1 (by decide),
   (receive_classification (initState []) "Zabc").2.1 (by decide) (by decide),
   (receive_classification (initState []) "foo").2.2 (by decide) (by decide) (by decide)⟩

/-! ## Claim C2: budget-report parsing -/

/-- Counterexample to C2 as stated: the line `"2150"` starts with `"21"`;
the remainder after the 2-character prefix, trimmed, parses to 50, so the
claim prescribes a budget of `50 * 10 = 500`, but the code drops three
characters (`line[3:]`) and sets the budget to `int("0") * 10 or 1 = 1`. -/
theorem budget_line_parse_counterexample :
    pyStartsWith "2150" "21" = true ∧
    pyInt (pyStrip (pyDrop "2150" 2)) = some 50 ∧
    receive_message (initState []) "2150"
      = some { initState [] with remaining_budget := 1 } ∧
    (1 : Int) ≠ 50 * 10 := by decide

/-- C2 (amended): a `"21"` line whose remainder after the first THREE
characters, trimmed, parses to `n` sets the remaining budget to `n * 10`,
with a product of 0 coerced to 1. -/
theorem budget_report_sets_budget (s : CulState) (line : String) (n : Int)
    (h21 : pyStartsWith line "21" = true)
    (hparse : pyInt (pyStrip (pyDrop line 3)) = some n) :
    receive_message s line
      = some { s with remaining_budget := if n * 10 = 0 then 1 else n * 10 } := by
  simp [receive_message, h21, budget_report, hparse]

/-- Witness for C2 at the spec's example `"21 50"`: the budget becomes 500. -/
theorem budget_report_sets_budget_witness :
    pyStartsWith "21 50" "21" = true ∧
    pyInt (pyStrip (pyDrop "21 50" 3)) = some 50 ∧
    receive_message (initState []) "21 50"
      = some { initState [] with remaining_budget := 500 } := by
  have h := budget_report_sets_budget (initState []) "21 50" 50 (by decide) (by decide)
  refine ⟨by decide, by decide, ?_⟩
  rw [h]
  decide

/-! ## Claim C3: the outbound queue is bounded and retains the newest -/

/-- Folding `enqueue_command` only acts on the `send_queue` field, by
`dequeAppendleft`. -/
theorem foldl_enqueue_send_queue (cs : List Command) (s : CulState) :
    (cs.foldl enqueue_command s).send_queue = cs.foldl dequeAppendleft s.send_queue := by
  induction cs generalizing s with
  | nil => rfl
  | cons c cs ih =>
    rw [List.foldl_cons, List.foldl_cons, ih]
    rfl

/-- Folding bounded `appendleft` over a queue of legal size truncates the
reversed insertion order to capacity. -/
theorem foldl_dequeAppendleft (cs : List Command) (q : List Command)
    (hq : q.length ≤ MAX_QUEUED_COMMANDS) :
    cs.foldl dequeAppendleft q = (cs.reverse ++ q).take MAX_QUEUED_COMMANDS := by
  induction cs generalizing q with
  | nil => simpa using (List.take_of_length_le hq).symm
  | cons c cs ih =>
    rw [List.foldl_cons]
    have h1 : (dequeAppendleft q c).length ≤ MAX_QUEUED_COMMANDS := by
      simp only [dequeAppendleft, List.length_take]
      exact Nat.min_le_left _ _
    rw [ih _ h1]
    unfold dequeAppendleft
    rw [take_append_take]
    simp [List.reverse_cons, List.append_assoc]

/-- C3: after any sequence of `enqueue_command` calls the send queue holds
at most `MAX_QUEUED_COMMANDS = 10` entries, and the retained entries are
exactly the most recently enqueued ones in their relative order (the queue,
newest first, is the reversed 10-suffix of the enqueue sequence; read
oldest-to-newest it is that suffix itself). -/
theorem send_queue_bounded_retains_newest (cs : List Command) :
    ((cs.foldl enqueue_command (initState [])).send_queue).length ≤ MAX_QUEUED_COMMANDS ∧
    (cs.foldl enqueue_command (initState [])).send_queue
      = cs.reverse.take MAX_QUEUED_COMMANDS ∧
    ((cs.foldl enqueue_command (initState [])).send_queue).reverse
      = cs.drop (cs.length - MAX_QUEUED_COMMANDS) := by
  have h : (cs.foldl enqueue_command (initState [])).send_queue
      = cs.reverse.take MAX_QUEUED_COMMANDS := by
    rw [foldl_enqueue_send_queue]
    rw [show (initState ([] : List Command)).send_queue = [] from rfl]
    simpa using foldl_dequeAppendleft cs [] (by simp)
  refine ⟨?_, h, ?_⟩
  · rw [h, List.length_take]
    exact Nat.min_le_left _ _
  · rw [h, List.take_reverse, List.reverse_reverse]

/-! ## Claim C9: the budget is never negative -/

/-- With no write failure the explicit send step coincides with the
atomic `send_pending_message`. -/
theorem send_io_false (s : CulState) :
    send_pending_message_io s false = send_pending_message s := by
  unfold send_pending_message_io send_pending_message
  cases popOldest s.send_queue with
  | none => rfl
  | some pr =>
    obtain ⟨msg, rest⟩ := pr
    cases msg.encode_message with
    | none => rfl
    | some c => rfl

/-- Counterexample to C9 as stated, in two reachable ways.  First, the
device line `"21 -5"` drives the budget to `-50` (Python's `int` parses
the sign).  Second — and even with every budget report nonnegative — the
budget 2000 obtained from `"21 200"` followed by an admitted send of the
16-character `"Zs..."` command whose write raises ends at `-480`: the
exception handler of `_writeline` resets the budget to 0 via
`_reopen_serial_device` between the admission check and the debit, and the
debit then executes on the reset value. -/
theorem budget_goes_negative :
    (Reach (fun _ => True) (fun _ => True)
      { read_queue := [], send_queue := [], remaining_budget := -50,
        waiting_for_budget := false, written := [] } ∧
     ({ read_queue := [], send_queue := [], remaining_budget := -50,
        waiting_for_budget := false, written := [] } : CulState).remaining_budget < 0) ∧
    (Reach NonnegReport (fun _ => True) (send_pending_message_io preFailState true) ∧
     (send_pending_message_io preFailState true).remaining_budget = -480 ∧
     (send_pending_message_io preFailState true).remaining_budget < 0) := by
  refine ⟨⟨Reach.recv (initState []) "21 -5" _ (Reach.init []) trivial (by decide), by decide⟩,
          ?_, by decide, by decide⟩
  refine Reach.send preFailState true trivial ?_
  refine Reach.recv (initState [zsCmd]) "21 200" preFailState (Reach.init [zsCmd]) ?_ (by decide)
  intro _ n hn
  rw [show pyInt (pyStrip (pyDrop "21 200" 3)) = some 200 from by decide] at hn
  cases Option.some.inj hn
  decide

/-- C9 (amended): in every state reachable under device inputs whose
budget reports parse to nonnegative values AND a transport whose writes do
not raise during send steps, the remaining budget is never negative — the
debit is guarded by the admission check, a nonnegative report assigns a
positive value, and the reconnect reset assigns zero.  (Both hypotheses
are needed: a negative report, or a write failure between the admission
check and the debit of an admitted transmit send, each yield a reachable
negative budget, see the counterexample.) -/
theorem budget_never_negative (s : CulState)
    (h : Reach NonnegReport NoWriteFailure s) :
    0 ≤ s.remaining_budget := by
  induction h with
  | init q => exact le_refl 0
  | enqueue s c _ ih => simpa [enqueue_command] using ih
  | recv s line s' _ hok hrecv ih =>
    by_cases h21 : pyStartsWith line "21" = true
    · rw [show receive_message s line
          = (budget_report line).map (fun b => { s with remaining_budget := b }) from by
            simp [receive_message, h21]] at hrecv
      cases hb : pyInt (pyStrip (pyDrop line 3)) with
      | none => simp [budget_report, hb] at hrecv
      | some n =>
        simp only [budget_report, hb, Option.map_some'] at hrecv
        cases Option.some.inj hrecv
        have hn : 0 ≤ n := hok h21 n hb
        show (0 : Int) ≤ if n * 10 = 0 then 1 else n * 10
        split <;> omega
    · unfold receive_message at hrecv
      rw [if_neg h21] at hrecv
      split at hrecv
      · cases Option.some.inj hrecv; simpa using ih
      · split at hrecv
        · cases Option.some.inj hrecv; simpa using ih
        · cases Option.some.inj hrecv; simpa using ih
  | send s wfail hw _ ih =>
    have hw' : wfail = false := hw
    subst hw'
    rw [send_io_false]
    cases hpop : popOldest s.send_queue with
    | none => simpa [send_pending_message, hpop] using ih
    | some pr =>
      obtain ⟨msg, rest⟩ := pr
      cases henc : msg.encode_message with
      | none =>
        simp only [send_pending_message, hpop, henc]
        exact ih
      | some c =>
        by_cases hadm : s.remaining_budget > (c.length : Int) * COMMAND_CHARACTER_WEIGHT
        · by_cases hz : pyStartsWith c "Zs" = true
          · simp only [send_pending_message, hpop, henc]
            rw [if_pos hadm, if_pos hz]
            show 0 ≤ s.remaining_budget - COMMAND_CHARACTER_WEIGHT * (c.length : Int)
            have hadm30 : s.remaining_budget > (c.length : Int) * 30 := hadm
            show 0 ≤ s.remaining_budget - 30 * (c.length : Int)
            omega
          · simp only [send_pending_message, hpop, henc]
            rw [if_pos hadm, if_neg hz]
            exact ih
        · simp only [send_pending_message, hpop, henc]
          rw [if_neg hadm]
          exact ih
  | budgetQuery s wfail _ ih =>
    cases wfail with
    | false => exact ih
    | true => exact le_refl 0
  | reconnect s _ ih => exact le_refl 0

/-- Witness for C9 (amended) at the freshly constructed state. -/
theorem budget_never_negative_witness :
    0 ≤ (initState []).remaining_budget :=
  budget_never_negative (initState []) (Reach.init [])

/-! ## Claim C5: mid-run reconnection and the handshake -/

/-- The version loop finds its answer within its fuel. -/
theorem findVersion_lt (replies : Nat → Option String) :
    ∀ (fuel i0 i : Nat) (v : String),
      findVersion replies fuel i0 = some (i, v) → i < i0 + fuel := by
  intro fuel
  induction fuel with
  | zero => intro i0 i v h; simp [findVersion] at h
  | succ fuel ih =>
    intro i0 i v h
    unfold findVersion at h
    cases hr : replies i0 with
    | some w =>
      simp only [hr] at h
      cases Option.some.inj h
      omega
    | none =>
      simp only [hr] at h
      have := ih (i0 + 1) i v h
      omega

/-- A successful `_open_serial_device` call always runs the full
`_initialize_serial_device` handshake: its writes are `i + 1 ≤ 10` version
queries followed by `"X21"`, `"Zr"`, `"T01"` and the budget query. -/
theorem open_success_writes (p : PortOpen) (h : (open_serial_device p).1 = true) :
    ∃ i, i < 10 ∧ (open_serial_device p).2
      = List.replicate (i + 1) "V" ++ ["X21", "Zr", "T01", COMMAND_REQUEST_BUDGET] := by
  cases p with
  | fail => simp [open_serial_device] at h
  | ok replies =>
    simp only [open_serial_device, initialize_serial_device] at h ⊢
    cases hv : findVersion replies 10 0 with
    | none => simp [hv] at h
    | some iv =>
      obtain ⟨i, v⟩ := iv
      simp only [hv]
      exact ⟨i, by simpa using findVersion_lt replies 10 0 i v hv, rfl⟩

/-- A successful run of the backoff loop ends in a successful attempt whose
writes are the full handshake. -/
theorem reopen_go_success (env : Nat → PortOpen) :
    ∀ (ts : List Nat) (k : Nat), (reopen_go env k ts).1 = true →
      ∃ evs i, i < 10 ∧ (reopen_go env k ts).2
        = evs ++ [ReopenEvent.attempt
            (List.replicate (i + 1) "V" ++ ["X21", "Zr", "T01", COMMAND_REQUEST_BUDGET]) true] := by
  intro ts
  induction ts with
  | nil => intro k h; simp [reopen_go] at h
  | cons t ts ih =>
    intro k h
    by_cases hk : (open_serial_device (env k)).1 = true
    · obtain ⟨i, hi, hw⟩ := open_success_writes (env k) hk
      exact ⟨[], i, hi, by simp [reopen_go, hk, hw]⟩
    · have htail : (reopen_go env (k + 1) ts).1 = true := by
        unfold reopen_go at h
        rw [if_neg hk] at h
        exact h
      obtain ⟨evs, i, hi, hw⟩ := ih (k + 1) htail
      refine ⟨ReopenEvent.attempt (open_serial_device (env k)).2 false
          :: ReopenEvent.wait t :: evs, i, hi, ?_⟩
      unfold reopen_go
      rw [if_neg hk]
      simp [hw]

/-- Counterexample to C5 as stated: with the first reopen attempt
succeeding and the device answering the first version query, the
reconnection writes the version query `"V"` and the mode-configuration
commands `"X21"`, `"Zr"`, `"T01"` again — the handshake is repeated, not
skipped. -/
theorem reconnect_sends_handshake_counterexample :
    reopen_serial_device envOkFirst
      = (true, [ReopenEvent.attempt ["V", "X21", "Zr", "T01", "X"] true]) ∧
    "V" ∈ ["V", "X21", "Zr", "T01", "X"] ∧
    "X21" ∈ ["V", "X21", "Zr", "T01", "X"] ∧
    "Zr" ∈ ["V", "X21", "Zr", "T01", "X"] ∧
    "T01" ∈ ["V", "X21", "Zr", "T01", "X"] := by decide

/-- C5 (amended): when a mid-run reconnection first succeeds in reopening
the connection, the loop resumes only after REPEATING the INIT handshake:
the successful attempt writes the version query (`"V"`, 1 to 10 times) and
the mode-configuration commands `"X21"`, `"Zr"`, `"T01"` followed by a
budget query, exactly as at INIT. -/
theorem reconnect_repeats_handshake (env : Nat → PortOpen)
    (h : (reopen_serial_device env).1 = true) :
    ∃ evs i, i < 10 ∧
      (reopen_serial_device env).2
        = evs ++ [ReopenEvent.attempt
            (List.replicate (i + 1) "V" ++ ["X21", "Zr", "T01", COMMAND_REQUEST_BUDGET]) true] :=
  reopen_go_success env [5, 10, 20, 40, 80, 160] 0 h

/-- Witness for C5 (amended) in the environment where the first attempt
succeeds. -/
theorem reconnect_repeats_handshake_witness :
    (reopen_serial_device envOkFirst).1 = true ∧
    ∃ evs i, i < 10 ∧
      (reopen_serial_device envOkFirst).2
        = evs ++ [ReopenEvent.attempt
            (List.replicate (i + 1) "V" ++ ["X21", "Zr", "T01", COMMAND_REQUEST_BUDGET]) true] :=
  ⟨by decide, reconnect_repeats_handshake envOkFirst (by decide)⟩

/-! ## Claim C6: the backoff sequence -/

/-- Counterexample to C6 as stated: when every open attempt fails, the
trace contains six attempts, not seven, and ends with the 160-second wait —
there is no final open attempt after the last wait. -/
theorem backoff_no_seventh_attempt_counterexample :
    ((reopen_serial_device envAllFail).2.filter ReopenEvent.isAttempt).length = 6 ∧
    ((reopen_serial_device envAllFail).2.filter ReopenEvent.isAttempt).length ≠ 7 ∧
    (reopen_serial_device envAllFail).2.getLast? = some (ReopenEvent.wait 160) ∧
    (reopen_serial_device envAllFail).1 = false := by decide

/-- C6 (amended): the driver makes one open attempt BEFORE each wait of the
fixed backoff sequence {5, 10, 20, 40, 80, 160} and none after the last
wait — six attempts in total when all fail — and only then does
`_reopen_serial_device` report failure (upon which its caller sets the stop
flag, reaching STOPPED). -/
theorem backoff_six_attempts (env : Nat → PortOpen)
    (h : ∀ k, k < 6 → (open_serial_device (env k)).1 = false) :
    reopen_serial_device env
      = (false,
         [ReopenEvent.attempt (open_serial_device (env 0)).2 false, ReopenEvent.wait 5,
          ReopenEvent.attempt (open_serial_device (env 1)).2 false, ReopenEvent.wait 10,
          ReopenEvent.attempt (open_serial_device (env 2)).2 false, ReopenEvent.wait 20,
          ReopenEvent.attempt (open_serial_device (env 3)).2 false, ReopenEvent.wait 40,
          ReopenEvent.attempt (open_serial_device (env 4)).2 false, ReopenEvent.wait 80,
          ReopenEvent.attempt (open_serial_device (env 5)).2 false, ReopenEvent.wait 160]) := by
  have h0 := h 0 (by omega)
  have h1 := h 1 (by omega)
  have h2 := h 2 (by omega)
  have h3 := h 3 (by omega)
  have h4 := h 4 (by omega)
  have h5 := h 5 (by omega)
  simp [reopen_serial_device, reopen_go, h0, h1, h2, h3, h4, h5]

/-- Witness for C6 (amended) in the environment where every attempt fails. -/
theorem backoff_six_attempts_witness :
    reopen_serial_device envAllFail
      = (false,
         [ReopenEvent.attempt [] false, ReopenEvent.wait 5,
          ReopenEvent.attempt [] false, ReopenEvent.wait 10,
          ReopenEvent.attempt [] false, ReopenEvent.wait 20,
          ReopenEvent.attempt [] false, ReopenEvent.wait 40,
          ReopenEvent.attempt [] false, ReopenEvent.wait 80,
          ReopenEvent.attempt [] false, ReopenEvent.wait 160]) := by
  have h := backoff_six_attempts envAllFail (fun k _ => rfl)
  simpa [envAllFail, open_serial_device] using h

/-! ## Claim C10: nothing is sent before the first budget report -/

/-- Processing a line that is not a budget report can only grow the event
sink; budget, send queue and written lines are untouched. -/
theorem receive_message_non21 (s : CulState) (line : String)
    (h : pyStartsWith line "21" = false) :
    ∃ rq, receive_message s line = some { s with read_queue := rq } := by
  unfold receive_message
  rw [if_neg (by simp [h])]
  split
  · exact ⟨s.read_queue, rfl⟩
  · split
    · exact ⟨s.read_queue ++ [line], rfl⟩
    · exact ⟨s.read_queue, rfl⟩

/-- Draining any number of non-budget-report lines only grows the event
sink. -/
theorem receive_messages_non21 (lines : List String) :
    ∀ (s : CulState), (∀ line ∈ lines, pyStartsWith line "21" = false) →
      ∃ rq, receive_messages s lines = some { s with read_queue := rq } := by
  induction lines with
  | nil => intro s _; exact ⟨s.read_queue, rfl⟩
  | cons line rest ih =>
    intro s hall
    obtain ⟨rq1, h1⟩ := receive_message_non21 s line (hall line (by simp))
    obtain ⟨rq2, h2⟩ := ih { s with read_queue := rq1 } (fun l hl => hall l (by simp [hl]))
    exact ⟨rq2, by simp [receive_messages, h1, h2]⟩

/-- A loop iteration at zero budget with no inbound budget report takes the
low-budget branch: it writes only the budget query and pops nothing. -/
theorem loop_step_zero_budget (s : CulState) (lines : List String)
    (hb : s.remaining_budget = 0)
    (hall : ∀ line ∈ lines, pyStartsWith line "21" = false) :
    ∃ rq, loop_step s lines
      = some { s with read_queue := rq,
                      written := s.written ++ [COMMAND_REQUEST_BUDGET],
                      waiting_for_budget := true } := by
  obtain ⟨rq, hr⟩ := receive_messages_non21 lines s hall
  refine ⟨rq, ?_⟩
  simp only [loop_step, hr, Option.map_some']
  rw [if_pos (show s.remaining_budget < MIN_REQUIRED_BUDGET by
    show s.remaining_budget < 1500
    omega)]

/-- Iterating the loop from zero budget with no inbound budget report
leaves the budget at zero and the send queue untouched, and writes one
budget query per tick. -/
theorem runLoop_zero_budget (ticks : List (List String)) :
    ∀ (s : CulState), s.remaining_budget = 0 →
      (∀ lines ∈ ticks, ∀ line ∈ lines, pyStartsWith line "21" = false) →
      ∃ s', runLoop s ticks = some s' ∧
        s'.remaining_budget = 0 ∧ s'.send_queue = s.send_queue ∧
        s'.written = s.written ++ List.replicate ticks.length COMMAND_REQUEST_BUDGET := by
  induction ticks with
  | nil => intro s hb _; exact ⟨s, rfl, hb, rfl, by simp⟩
  | cons lines rest ih =>
    intro s hb hall
    obtain ⟨rq, h1⟩ := loop_step_zero_budget s lines hb (hall lines (by simp))
    obtain ⟨s', h2, hb', hq', hw'⟩ :=
      ih { s with read_queue := rq,
                  written := s.written ++ [COMMAND_REQUEST_BUDGET],
                  waiting_for_budget := true }
        hb (fun ls hls => hall ls (by simp [hls]))
    refine ⟨s', ?_, hb', hq', ?_⟩
    · simp [runLoop, h1, h2]
    · rw [hw']
      simp [List.replicate_succ, List.append_assoc]

/-- C10: at construction the budget is 0, so `has_send_budget` is false,
and as long as no inbound line is a budget report every loop iteration
takes the low-budget branch: the send queue is never popped and the only
line written by the loop is the budget query, once per tick. -/
theorem no_send_before_first_budget_report (q : List Command)
    (ticks : List (List String))
    (hall : ∀ lines ∈ ticks, ∀ line ∈ lines, pyStartsWith line "21" = false) :
    has_send_budget (initState q) = false ∧
    ∃ s', runLoop (initState q) ticks = some s' ∧
      s'.remaining_budget = 0 ∧ s'.send_queue = q ∧
      s'.written = List.replicate ticks.length COMMAND_REQUEST_BUDGET := by
  refine ⟨rfl, ?_⟩
  obtain ⟨s', h, hb, hq, hw⟩ := runLoop_zero_budget ticks (initState q) rfl hall
  exact ⟨s', h, hb, hq, by simpa using hw⟩

/-- Witness for C10 over two ticks with non-report inbound lines. -/
theorem no_send_before_first_budget_report_witness :
    has_send_budget (initState [wNew]) = false ∧
    ∃ s', runLoop (initState [wNew]) [["Zabc"], ["foo"]] = some s' ∧
      s'.remaining_budget = 0 ∧ s'.send_queue = [wNew] ∧
      s'.written = List.replicate 2 COMMAND_REQUEST_BUDGET :=
  no_send_before_first_budget_report [wNew] [["Zabc"], ["foo"]] (by decide)

end Maxcul
